import Mathlib

/-!
Shallow embedding of `src/app.py` (Browser-Use Web UI): the session registry,
the HTTP handlers (`create_session`, `start_session`, `stop_session`,
`list_sessions`, `health_check`), the websocket endpoint, the internal log
broadcaster `_log_to_session`, and the background runner
`_run_browser_automation` with its screenshot loop.

Python dictionaries (`self.sessions`, `self.active_connections`) are modelled
as association lists with Python's dict semantics: assignment to an existing
key updates it in place, assignment to a new key appends, `del` removes.
Timestamps (`datetime.now()`) are threaded as explicit `Nat` parameters.
WebSocket handles are modelled as `Nat` connection identifiers; each operation
returns the list of `(connection, message)` pairs it sent.
-/

namespace WebUI

/-- A log entry as built by `_log_to_session` (src/app.py lines 275-279):
`{"timestamp": ..., "level": ..., "message": ...}`. -/
structure LogEntry where
  timestamp : Nat
  level : String
  message : String
deriving DecidableEq, Repr

/-- Lookup in an association list, modelling Python `d[k]` / `k in d`. -/
def dlookup {α : Type} : List (String × α) → String → Option α
  | [], _ => none
  | (k2, v) :: rest, k => if k2 = k then some v else dlookup rest k

/-- Assignment `d[k] = v` with Python dict semantics: an existing key is
updated in place (keeping its position), a new key is appended at the end. -/
def dinsert {α : Type} : List (String × α) → String → α → List (String × α)
  | [], k, v => [(k, v)]
  | (k2, v2) :: rest, k, v =>
      if k2 = k then (k2, v) :: rest else (k2, v2) :: dinsert rest k v

/-- Deletion `del d[k]`: removes the entry for `k` (keys are unique, so
removing the first occurrence is removing the only one). -/
def derase {α : Type} : List (String × α) → String → List (String × α)
  | [], _ => []
  | (k2, v2) :: rest, k => if k2 = k then rest else (k2, v2) :: derase rest k

/-- The `BrowserSession` dataclass (src/app.py lines 34-51).  The
`agent`, `controller`, `browser`, `page` object attributes are modelled as
booleans recording whether the attribute has been set to a non-None handle
(their Python truthiness); `created_at` is a `Nat` timestamp. -/
structure BrowserSession where
  session_id : String
  agent : Bool := false
  controller : Bool := false
  browser : Bool := false
  page : Bool := false
  status : String := "idle"
  task : String := ""
  created_at : Nat := 0
  logs : List LogEntry := []
deriving DecidableEq, Repr

/-- The snapshot dictionary returned by `BrowserSession.to_dict`
(src/app.py lines 53-60). -/
structure SessionSnapshot where
  session_id : String
  status : String
  task : String
  created_at : Nat
  logs : List LogEntry
deriving DecidableEq, Repr

/-- `BrowserSession.to_dict` (src/app.py lines 53-60); `logs[-50:]` keeps the
last 50 entries, which for a list of length `n` is `drop (n - 50)`. -/
def BrowserSession.to_dict (s : BrowserSession) : SessionSnapshot :=
  { session_id := s.session_id
    status := s.status
    task := s.task
    created_at := s.created_at
    logs := s.logs.drop (s.logs.length - 50) }

/-- The three wire message shapes sent over a session's websocket:
`{"type": "log", ...}`, `{"type": "screenshot", ...}` (its payload reduced to
the capture timestamp), `{"type": "status_update", ...}`. -/
inductive WsMessage where
  | log (entry : LogEntry)
  | screenshot (timestamp : Nat)
  | status_update (snap : SessionSnapshot)
deriving DecidableEq, Repr

/-- A background task spawned with `asyncio.create_task` and never stored:
the session runner (src/app.py line 138) and the screenshot loop
(src/app.py line 248). -/
inductive BgTask where
  | runner (sid : String)
  | screenshots (sid : String)
deriving DecidableEq, Repr

/-- The mutable server state of `BrowserUseWebUI` (src/app.py lines 62-66):
`self.sessions`, `self.active_connections` (one websocket per session id),
plus the multiset of live background tasks the event loop is running. -/
structure SystemState where
  sessions : List (String × BrowserSession) := []
  active_connections : List (String × Nat) := []
  tasks : List BgTask := []
deriving DecidableEq, Repr

/-- An `HTTPException` as raised by the handlers. -/
structure HttpError where
  status_code : Nat
  detail : String
deriving DecidableEq, Repr

/-- `GET /health` (src/app.py lines 96-99). -/
def health_check (st : SystemState) : String × Nat :=
  ("healthy", st.sessions.length)

/-- `GET /api/sessions` (src/app.py lines 101-107): snapshots of all
sessions in insertion order, plus the total count. -/
def list_sessions (st : SystemState) : List SessionSnapshot × Nat :=
  (st.sessions.map (fun p => p.2.to_dict), st.sessions.length)

/-- `POST /api/sessions` (src/app.py lines 109-125).  `request.get("task","")`
followed by `if not task` rejects exactly the empty task with a 400 before any
state is touched; otherwise a fresh uuid (the `fresh_id` parameter) keys a new
idle session.  The handler body runs with no intervening await, so it is
atomic on the event loop. -/
def create_session (st : SystemState) (task : String) (fresh_id : String)
    (now : Nat) : Except HttpError (SystemState × String) :=
  if task = "" then
    .error { status_code := 400, detail := "Task is required" }
  else
    let session : BrowserSession :=
      { session_id := fresh_id, task := task, created_at := now }
    .ok ({ st with sessions := dinsert st.sessions fresh_id session }, fresh_id)

/-- `POST /api/sessions/{id}/start` (src/app.py lines 127-140).  404 when the
id is unknown, 400 when the stored status is exactly "running"; otherwise it
spawns `_run_browser_automation` as an untracked background task and returns
"starting".  Note: the handler itself does NOT change the session's status —
the transition to "running" is the first statement of the spawned task, which
only executes once the event loop schedules it. -/
def start_session (st : SystemState) (sid : String) :
    Except HttpError (SystemState × String) :=
  match dlookup st.sessions sid with
  | none => .error { status_code := 404, detail := "Session not found" }
  | some session =>
      if session.status = "running" then
        .error { status_code := 400, detail := "Session already running" }
      else
        .ok ({ st with tasks := st.tasks ++ [BgTask.runner sid] }, "starting")

/-- `DELETE /api/sessions/{id}` (src/app.py lines 142-165).  404 when the id
is unknown; otherwise it issues `close()` on the session's page and browser
attributes (each wrapped in try/except pass) and deletes the registry entry.
It does not cancel or await the runner or screenshot tasks (their handles were
never stored), does not change the session object's status, and does not
remove the id's websocket registration. -/
def stop_session (st : SystemState) (sid : String) :
    Except HttpError (SystemState × String) :=
  match dlookup st.sessions sid with
  | none => .error { status_code := 404, detail := "Session not found" }
  | some _ =>
      .ok ({ st with sessions := derase st.sessions sid },
           "Session stopped and deleted")

/-- The broadcast step of `_log_to_session` (src/app.py lines 283-291): the
message is sent to the single websocket registered for the id, if any (the
send itself is wrapped in try/except pass). -/
def broadcast (st : SystemState) (sid : String) (m : WsMessage) :
    List (Nat × WsMessage) :=
  match dlookup st.active_connections sid with
  | none => []
  | some ws => [(ws, m)]

/-- `_log_to_session` (src/app.py lines 270-291): for an unknown id it
returns immediately; otherwise it appends a log entry to the session's log
and broadcasts it to the id's registered websocket.  Returns the new state
and the messages sent. -/
def log_to_session (st : SystemState) (sid : String) (level : String)
    (message : String) (now : Nat) : SystemState × List (Nat × WsMessage) :=
  match dlookup st.sessions sid with
  | none => (st, [])
  | some session =>
      let entry : LogEntry :=
        { timestamp := now, level := level, message := message }
      let session2 := { session with logs := session.logs ++ [entry] }
      ({ st with sessions := dinsert st.sessions sid session2 },
       broadcast st sid (WsMessage.log entry))

/-- The connect phase of the websocket endpoint (src/app.py lines 167-171):
`accept()` is called unconditionally — the session id is never checked — and
the socket is stored under the id, replacing any previously stored socket for
the same id.  The returned boolean is the accept outcome (always true). -/
def websocket_accept (st : SystemState) (sid : String) (ws : Nat) :
    SystemState × Bool :=
  ({ st with active_connections := dinsert st.active_connections sid ws }, true)

/-- One iteration of the websocket endpoint's update loop (src/app.py lines
174-183): if a session with the id exists, its full snapshot is sent to this
connection's own socket; otherwise nothing is sent; then it sleeps 1 second. -/
def websocket_tick (st : SystemState) (sid : String) (ws : Nat) :
    List (Nat × WsMessage) :=
  match dlookup st.sessions sid with
  | none => []
  | some session => [(ws, WsMessage.status_update session.to_dict)]

/-- The disconnect handler of the websocket endpoint (src/app.py lines
185-187): `if session_id in self.active_connections: del ...` — it removes
whatever socket is currently registered under the id, which need not be the
socket that disconnected. -/
def websocket_disconnect (st : SystemState) (sid : String) : SystemState :=
  { st with active_connections := derase st.active_connections sid }

/-- The first statements of `_run_browser_automation` (src/app.py lines
191-192), executed only when the event loop first schedules the task spawned
by `start_session`: look the session up and set its status to "running".
(If the id was deleted before the task first ran, line 191 raises `KeyError`
inside the detached task; modelled as the task ending with no effect.) -/
def runner_begin (st : SystemState) (sid : String) : SystemState :=
  match dlookup st.sessions sid with
  | none => st
  | some session =>
      { st with sessions :=
          dinsert st.sessions sid { session with status := "running" } }

/-- The await points inside the `try` block of `_run_browser_automation`
(src/app.py lines 194-251) at which an exception can first be raised. -/
inductive Stage where
  | anthropicInit
  | pwStart
  | browserLaunch
  | newContext
  | newPage
  | mkController
  | mkAgent
  | agentRun
deriving DecidableEq, Repr

/-- Which playwright-side resources are currently open (not yet closed):
the started playwright driver, the launched chromium browser, the browser
context stored in `session.browser`, and the page stored in `session.page`. -/
structure Resources where
  pw : Bool := false
  launch : Bool := false
  context : Bool := false
  page : Bool := false
deriving DecidableEq, Repr

/-- Rebuild the registry entry for `sid` through `f`; sessions are looked up
once and mutated in place in Python, which for a registry-resident session is
the same as updating the entry. -/
def updateSession (st : SystemState) (sid : String)
    (f : BrowserSession → BrowserSession) : SystemState :=
  match dlookup st.sessions sid with
  | none => st
  | some s => { st with sessions := dinsert st.sessions sid (f s) }

/-- The exception injected into a run: the stage whose await raises first,
with the exception's `str(e)` text. -/
def raiseNow (failAt : Option (Stage × String)) (stg : Stage) : Option String :=
  match failAt with
  | none => none
  | some (s, msg) => if s = stg then some msg else none

/-- `session.task` of the registry entry, used by the f-string at
src/app.py line 222. -/
def taskOf (st : SystemState) (sid : String) : String :=
  match dlookup st.sessions sid with
  | none => ""
  | some s => s.task

/-- The `try` block of `_run_browser_automation` (src/app.py lines 194-254),
step by step in source order: log "Starting browser automation...", build the
Anthropic client, start playwright, launch chromium, open a context (stored in
`session.browser`), open a page (stored in `session.page`), log "Browser
initialized successfully", build the Controller and Agent, log "Starting
task: ...", spawn the untracked screenshot task, and run the agent.  `failAt`
injects the first exception; the result carries the state, the resources still
open, the messages sent, and the raised exception text, if any. -/
def run_attempt (st0 : SystemState) (sid : String)
    (failAt : Option (Stage × String)) (now : Nat) :
    SystemState × Resources × List (Nat × WsMessage) × Option String :=
  let (st1, evs1) :=
    log_to_session st0 sid "info" "Starting browser automation..." now
  match raiseNow failAt Stage.anthropicInit with
  | some e => (st1, {}, evs1, some e)
  | none =>
  match raiseNow failAt Stage.pwStart with
  | some e => (st1, {}, evs1, some e)
  | none =>
  let r1 : Resources := { pw := true }
  match raiseNow failAt Stage.browserLaunch with
  | some e => (st1, r1, evs1, some e)
  | none =>
  let r2 : Resources := { r1 with launch := true }
  match raiseNow failAt Stage.newContext with
  | some e => (st1, r2, evs1, some e)
  | none =>
  let r3 : Resources := { r2 with context := true }
  let st2 := updateSession st1 sid (fun s => { s with browser := true })
  match raiseNow failAt Stage.newPage with
  | some e => (st2, r3, evs1, some e)
  | none =>
  let r4 : Resources := { r3 with page := true }
  let st3 := updateSession st2 sid (fun s => { s with page := true })
  let (st4, evs2) :=
    log_to_session st3 sid "info" "Browser initialized successfully" now
  match raiseNow failAt Stage.mkController with
  | some e => (st4, r4, evs1 ++ evs2, some e)
  | none =>
  let st5 := updateSession st4 sid (fun s => { s with controller := true })
  match raiseNow failAt Stage.mkAgent with
  | some e => (st5, r4, evs1 ++ evs2, some e)
  | none =>
  let st6 := updateSession st5 sid (fun s => { s with agent := true })
  let (st7, evs3) :=
    log_to_session st6 sid "info" ("Starting task: " ++ taskOf st6 sid) now
  let st8 := { st7 with tasks := st7.tasks ++ [BgTask.screenshots sid] }
  match raiseNow failAt Stage.agentRun with
  | some e => (st8, r4, evs1 ++ evs2 ++ evs3, some e)
  | none =>
  (st8, r4, evs1 ++ evs2 ++ evs3, none)

/-- The `finally` block of `_run_browser_automation` (src/app.py lines
262-268): if the `session.page` attribute is set, close the page (try/except
pass).  Nothing else is closed: the browser context, the launched browser and
the playwright driver are left open. -/
def finally_close (st : SystemState) (sid : String) (res : Resources) :
    Resources :=
  match dlookup st.sessions sid with
  | none => res
  | some s => if s.page then { res with page := false } else res

/-- The outcome of one complete execution of the runner task. -/
structure RunnerResult where
  state : SystemState
  resources : Resources
  events : List (Nat × WsMessage)
deriving DecidableEq, Repr

/-- `_run_browser_automation` (src/app.py lines 189-268) run to completion:
set status "running", execute the try block (`run_attempt`), then on success
set status "completed" and log a success entry, on any caught exception set
status "error" and log a single error entry ("Error in browser automation:
..."), and finally close the page if its attribute is set.  The except clause
catches every exception, so the function is total: no exception escapes the
task.  `run_result` is the value returned by `agent.run()` on success. -/
def run_browser_automation (st0 : SystemState) (sid : String)
    (failAt : Option (Stage × String)) (run_result : String) (now : Nat) :
    RunnerResult :=
  match dlookup st0.sessions sid with
  | none => { state := st0, resources := {}, events := [] }
  | some _ =>
      let st1 := updateSession st0 sid (fun s => { s with status := "running" })
      match run_attempt st1 sid failAt now with
      | (st2, res, evs, none) =>
          let st3 :=
            updateSession st2 sid (fun s => { s with status := "completed" })
          let (st4, evs2) := log_to_session st3 sid "success"
              ("Task completed: " ++ run_result) now
          { state := st4
            resources := finally_close st4 sid res
            events := evs ++ evs2 }
      | (st2, res, evs, some e) =>
          let st3 :=
            updateSession st2 sid (fun s => { s with status := "error" })
          let (st4, evs2) := log_to_session st3 sid "error"
              ("Error in browser automation: " ++ e) now
          { state := st4
            resources := finally_close st4 sid res
            events := evs ++ evs2 }

/-- One iteration of the `capture_screenshots` loop (src/app.py lines
225-245).  The loop guard reads the status of the session OBJECT captured by
the closure (not a registry lookup, so it also runs for a session already
deleted from the registry); the body screenshots the page if the attribute is
set and the page is still open (`page_open`; on a closed page the call raises
and is swallowed by the inner except), and sends the frame to the socket
currently registered for the id.  Returns whether the guard passed (the loop
continues) and the messages sent. -/
def capture_screenshots_step (session : BrowserSession) (page_open : Bool)
    (st : SystemState) (sid : String) (now : Nat) :
    Bool × List (Nat × WsMessage) :=
  if session.status = "running" then
    if session.page && page_open then
      match dlookup st.active_connections sid with
      | none => (true, [])
      | some ws => (true, [(ws, WsMessage.screenshot now)])
    else (true, [])
  else (false, [])

/-- A sequence of `_log_to_session` calls (level, message pairs), returning
the final state and the concatenation of the messages sent, in call order. -/
def publishLogs (st : SystemState) (sid : String)
    (msgs : List (String × String)) (now : Nat) :
    SystemState × List (Nat × WsMessage) :=
  match msgs with
  | [] => (st, [])
  | (lvl, m) :: rest =>
      let (st1, ev) := log_to_session st sid lvl m now
      let (st2, evs) := publishLogs st1 sid rest now
      (st2, ev ++ evs)

/-- The stored status of a session, if present. -/
def statusOf (st : SystemState) (sid : String) : Option String :=
  match dlookup st.sessions sid with
  | none => none
  | some s => some s.status

/-- The stored log of a session (empty when absent). -/
def logsOf (st : SystemState) (sid : String) : List LogEntry :=
  match dlookup st.sessions sid with
  | none => []
  | some s => s.logs

/-- How many entries of a log are at error level. -/
def countErrors (l : List LogEntry) : Nat :=
  l.countP (fun e => e.level == "error")

/-- The state after a successful `start_session`, the input state otherwise. -/
def afterStart (st : SystemState) (sid : String) : SystemState :=
  match start_session st sid with
  | .ok (st2, _) => st2
  | .error _ => st

/-- The state after a successful `stop_session`, the input state otherwise. -/
def afterStop (st : SystemState) (sid : String) : SystemState :=
  match stop_session st sid with
  | .ok (st2, _) => st2
  | .error _ => st

/-! Concrete states used by the closed theorems and witnesses. -/

/-- An idle session "s" with task "t", as produced by `create_session`. -/
def exIdleSession : BrowserSession :=
  { session_id := "s", task := "t", created_at := 0 }

/-- A registry holding only the idle session "s". -/
def exStateIdle : SystemState :=
  { sessions := [("s", exIdleSession)] }

/-- A session "s" that has reached the terminal status "completed". -/
def exCompletedSession : BrowserSession :=
  { session_id := "s", status := "completed", task := "t", created_at := 0 }

/-- A registry holding only the completed session "s". -/
def exStateCompleted : SystemState :=
  { sessions := [("s", exCompletedSession)] }

/-- A running session "s" whose runner has attached browser and page. -/
def exRunningSession : BrowserSession :=
  { session_id := "s", agent := true, controller := true, browser := true,
    page := true, status := "running", task := "t", created_at := 0 }

/-- A state mid-run: session "s" running, its websocket 7 connected, and its
two untracked background tasks live on the event loop. -/
def exStateRunning : SystemState :=
  { sessions := [("s", exRunningSession)]
    active_connections := [("s", 7)]
    tasks := [BgTask.runner "s", BgTask.screenshots "s"] }

/-- The empty server state, as after `BrowserUseWebUI.__init__`. -/
def exEmptyState : SystemState := {}

/-- A fixed log entry. -/
def exEntry : LogEntry := { timestamp := 0, level := "info", message := "m" }

/-- A session with 60 log entries, more than the snapshot bound of 50. -/
def exSession60 : BrowserSession :=
  { session_id := "s", task := "t", created_at := 0,
    logs := List.replicate 60 exEntry }

/-! Lemmas about the dictionary model. -/

theorem dlookup_dinsert_self {α : Type} (l : List (String × α)) (k : String)
    (v : α) : dlookup (dinsert l k v) k = some v := by
  induction l with
  | nil => simp [dinsert, dlookup]
  | cons hd tl ih =>
      obtain ⟨k2, v2⟩ := hd
      by_cases h : k2 = k <;> simp [dinsert, dlookup, h, ih]

theorem dlookup_dinsert_ne {α : Type} (l : List (String × α)) (k k' : String)
    (v : α) (h : k' ≠ k) : dlookup (dinsert l k v) k' = dlookup l k' := by
  induction l with
  | nil => simp [dinsert, dlookup, Ne.symm h]
  | cons hd tl ih =>
      obtain ⟨k2, v2⟩ := hd
      by_cases hk : k2 = k
      · subst hk
        simp [dinsert, dlookup, Ne.symm h]
      · simp [dinsert, dlookup, hk, ih]

theorem dlookup_derase_ne {α : Type} (l : List (String × α)) (k k' : String)
    (h : k' ≠ k) : dlookup (derase l k) k' = dlookup l k' := by
  induction l with
  | nil => simp [derase, dlookup]
  | cons hd tl ih =>
      obtain ⟨k2, v2⟩ := hd
      by_cases hk : k2 = k
      · subst hk
        simp [derase, dlookup, Ne.symm h]
      · simp [derase, dlookup, hk, ih]

theorem dinsert_length_new {α : Type} (l : List (String × α)) (k : String)
    (v : α) (h : dlookup l k = none) :
    (dinsert l k v).length = l.length + 1 := by
  induction l with
  | nil => simp [dinsert]
  | cons hd tl ih =>
      obtain ⟨k2, v2⟩ := hd
      by_cases hk : k2 = k
      · simp [dlookup, hk] at h
      · simp only [dlookup, hk, if_false] at h
        simp [dinsert, hk, ih h]

/-- Delivery helper: when a session exists and a socket `ws` is registered for
it, a sequence of `_log_to_session` calls sends exactly the published entries,
in publish order, all to `ws`. -/
theorem publishLogs_events (sid : String) (ws : Nat) (now : Nat)
    (msgs : List (String × String)) : ∀ st : SystemState,
    dlookup st.active_connections sid = some ws →
    (dlookup st.sessions sid).isSome = true →
    (publishLogs st sid msgs now).2
      = msgs.map (fun p =>
          (ws, WsMessage.log { timestamp := now, level := p.1, message := p.2 })) := by
  induction msgs with
  | nil => intro st _ _; simp [publishLogs]
  | cons hd tl ih =>
      intro st hconn hsess
      obtain ⟨s, hs⟩ := Option.isSome_iff_exists.mp hsess
      obtain ⟨lvl, m⟩ := hd
      simp only [publishLogs, log_to_session, hs, broadcast, hconn]
      rw [ih _ (by simpa using hconn) (by simp [dlookup_dinsert_self])]
      simp

/-- C1: the spec claims that of two concurrent `start` calls on the same idle
session exactly one wins, the loser observing AlreadyRunning, because the
status check and the transition to "running" are atomic.  In the code the
transition happens inside the spawned background task, not in the handler, so
two handlers that both run before either task is scheduled (a legal event-loop
interleaving, since `asyncio.create_task` does not run the task immediately)
both pass the check: both respond "starting", two runner tasks are spawned,
and the status is still "idle" after both calls. -/
theorem C1_concurrent_start_spawns_two_runners :
    (start_session exStateIdle "s").isOk = true ∧
    (start_session (afterStart exStateIdle "s") "s").isOk = true ∧
    (afterStart (afterStart exStateIdle "s") "s").tasks
      = [BgTask.runner "s", BgTask.runner "s"] ∧
    statusOf (afterStart (afterStart exStateIdle "s") "s") "s" = some "idle" :=
  ⟨rfl, rfl, rfl, rfl⟩

/-- C2 counterexample: `start_session` on a session whose status is the
terminal "completed" is accepted (only "running" is rejected), and the spawned
runner then moves the session back to "running" — a transition out of a
terminal state, contradicting the claim as stated. -/
theorem C2_start_restarts_completed_session :
    (start_session exStateCompleted "s").isOk = true ∧
    statusOf (runner_begin (afterStart exStateCompleted "s") "s") "s"
      = some "running" :=
  ⟨rfl, rfl⟩

/-- C2 amended: once a session is in a terminal status ("completed" or
"error"), `create_session`, `_log_to_session` and `stop_session` never change
that status (stop may only remove the record); but `start_session` on such a
session is accepted rather than rejected, and its runner then overwrites the
terminal status with "running". -/
theorem C2_terminal_preserved_except_start (st : SystemState) (sid : String)
    (s : BrowserSession) (hs : dlookup st.sessions sid = some s)
    (hterm : s.status = "completed" ∨ s.status = "error") :
    (∀ t fid now st2 rid, create_session st t fid now = .ok (st2, rid) →
        fid ≠ sid → statusOf st2 sid = some s.status) ∧
    (∀ sid2 lvl m now,
        statusOf (log_to_session st sid2 lvl m now).1 sid = some s.status) ∧
    (∀ sid2 st2 m, stop_session st sid2 = .ok (st2, m) → sid2 ≠ sid →
        statusOf st2 sid = some s.status) ∧
    (start_session st sid).isOk = true := by
  refine ⟨?_, ?_, ?_, ?_⟩
  · intro t fid now st2 rid hok hne
    rw [create_session] at hok
    split at hok
    · simp at hok
    · simp only [Except.ok.injEq, Prod.mk.injEq] at hok
      obtain ⟨h1, _⟩ := hok
      subst h1
      simp [statusOf, dlookup_dinsert_ne _ _ _ _ (Ne.symm hne), hs]
  · intro sid2 lvl m now
    by_cases h2 : sid2 = sid
    · subst h2
      simp [log_to_session, hs, statusOf, dlookup_dinsert_self]
    · rw [log_to_session]
      cases hl : dlookup st.sessions sid2 with
      | none => simp [statusOf, hs]
      | some s2 => simp [statusOf, dlookup_dinsert_ne _ _ _ _ (Ne.symm h2), hs]
  · intro sid2 st2 m hok hne
    rw [stop_session] at hok
    split at hok
    · simp at hok
    · simp only [Except.ok.injEq, Prod.mk.injEq] at hok
      obtain ⟨h1, _⟩ := hok
      subst h1
      simp [statusOf, dlookup_derase_ne _ _ _ (Ne.symm hne), hs]
  · rcases hterm with h | h <;>
      simp [start_session, hs, h, Except.isOk, Except.toBool]

/-- C2 witness: the amended theorem applied to the concrete completed
session. -/
theorem C2_terminal_preserved_except_start_witness :
    statusOf (log_to_session exStateCompleted "s" "info" "m" 5).1 "s"
      = some "completed" ∧
    (start_session exStateCompleted "s").isOk = true := by
  have h := C2_terminal_preserved_except_start exStateCompleted "s"
    exCompletedSession rfl (Or.inl rfl)
  exact ⟨h.2.1 "s" "info" "m" 5, h.2.2.2⟩

/-- C3: `stop_session` on a running session removes the record (the id is
indeed absent from the listing afterwards) but cancels nothing: both untracked
background tasks survive the call, the websocket registration for the id
survives too, and the screenshot loop guard — which reads the status of the
session object captured by its closure, still "running" — continues to pass,
so the dangling tasks keep running on behalf of the removed record. -/
theorem C3_stop_leaves_dangling_tasks :
    (stop_session exStateRunning "s").isOk = true ∧
    dlookup (afterStop exStateRunning "s").sessions "s" = none ∧
    ((list_sessions (afterStop exStateRunning "s")).1.map
        (fun snap => snap.session_id)) = [] ∧
    (afterStop exStateRunning "s").tasks
      = [BgTask.runner "s", BgTask.screenshots "s"] ∧
    (afterStop exStateRunning "s").active_connections = [("s", 7)] ∧
    (capture_screenshots_step exRunningSession false
        (afterStop exStateRunning "s") "s" 9).1 = true :=
  ⟨rfl, rfl, rfl, rfl, rfl, rfl⟩

/-- C4: the runner releases only the page handle on exit.  When acquisition
fails at `new_page`, the already-acquired browser context (and the started
playwright driver and launched browser) stay open, contradicting the claim
that partially acquired resources are released; even a fully successful run
exits with the context, the launch and the driver still open, since the
`finally` block closes nothing but `session.page`. -/
theorem C4_runner_releases_only_page :
    (run_browser_automation exStateIdle "s"
        (some (Stage.newPage, "page failed")) "" 0).resources
      = { pw := true, launch := true, context := true, page := false } ∧
    (run_browser_automation exStateIdle "s" none "done" 0).resources
      = { pw := true, launch := true, context := true, page := false } ∧
    statusOf (run_browser_automation exStateIdle "s"
        (some (Stage.newPage, "page failed")) "" 0).state "s" = some "error" :=
  ⟨rfl, rfl, rfl⟩

/-- C5 counterexample: `active_connections` maps each session id to a single
socket.  With sockets 1 and 2 both attached to session "s", a published log
event is delivered only to socket 2 — the still-attached socket 1 receives
nothing; and when socket 1 disconnects, its handler deletes the entry of the
id, deregistering socket 2, after which a published event reaches nobody.
Both halves contradict the claim. -/
theorem C5_second_subscriber_replaces_first :
    (log_to_session
        (websocket_accept ((websocket_accept exStateIdle "s" 1).1) "s" 2).1
        "s" "info" "m" 3).2
      = [(2, WsMessage.log { timestamp := 3, level := "info", message := "m" })] ∧
    (log_to_session
        (websocket_disconnect
          (websocket_accept ((websocket_accept exStateIdle "s" 1).1) "s" 2).1
          "s")
        "s" "info" "m" 4).2
      = [] :=
  ⟨rfl, rfl⟩

/-- C5 amended: at most one subscriber per session is registered at a time —
attaching a new socket replaces the previous one — and the currently
registered socket receives every subsequently published log event, in publish
order; a disconnect for the session id detaches whichever socket is currently
registered. -/
theorem C5_single_registered_subscriber_in_order (st : SystemState)
    (sid : String) (w1 w2 : Nat) (s : BrowserSession)
    (msgs : List (String × String)) (now : Nat)
    (hs : dlookup st.sessions sid = some s) :
    dlookup ((websocket_accept ((websocket_accept st sid w1).1) sid w2).1).active_connections sid
      = some w2 ∧
    (publishLogs ((websocket_accept ((websocket_accept st sid w1).1) sid w2).1)
        sid msgs now).2
      = msgs.map (fun p =>
          (w2, WsMessage.log { timestamp := now, level := p.1, message := p.2 })) := by
  have hconn : dlookup ((websocket_accept ((websocket_accept st sid w1).1) sid w2).1).active_connections sid
      = some w2 := by
    simp [websocket_accept, dlookup_dinsert_self]
  refine ⟨hconn, publishLogs_events sid w2 now msgs _ hconn ?_⟩
  simp [websocket_accept, hs]

/-- C5 witness: the amended theorem applied to a concrete session, two
concrete sockets and two published entries. -/
theorem C5_single_registered_subscriber_in_order_witness :
    dlookup ((websocket_accept ((websocket_accept exStateIdle "s" 1).1) "s" 2).1).active_connections "s"
      = some 2 ∧
    (publishLogs ((websocket_accept ((websocket_accept exStateIdle "s" 1).1) "s" 2).1)
        "s" [("info", "a"), ("error", "b")] 7).2
      = [(2, WsMessage.log { timestamp := 7, level := "info", message := "a" }),
         (2, WsMessage.log { timestamp := 7, level := "error", message := "b" })] := by
  have h := C5_single_registered_subscriber_in_order exStateIdle "s" 1 2
    exIdleSession [("info", "a"), ("error", "b")] 7 rfl
  exact ⟨h.1, h.2⟩

/-- C6: whichever await of the try block raises first — client construction,
playwright start, browser launch, context or page acquisition, controller or
agent construction, or the agent run — the runner catches the exception at its
boundary (the embedding of the runner is a total function: nothing escapes the
task), sets the session status to "error" (the Failed terminal status of the
spec), and appends exactly one error-level log entry for it. -/
theorem C6_runner_catches_all_failures (st : SystemState) (sid : String)
    (s : BrowserSession) (stg : Stage) (msg rres : String) (now : Nat)
    (hs : dlookup st.sessions sid = some s) :
    statusOf (run_browser_automation st sid (some (stg, msg)) rres now).state sid
      = some "error" ∧
    countErrors (logsOf (run_browser_automation st sid (some (stg, msg)) rres now).state sid)
      = countErrors s.logs + 1 := by
  cases stg <;>
    simp [run_browser_automation, run_attempt, raiseNow, log_to_session,
          updateSession, broadcast, finally_close, taskOf, statusOf, logsOf,
          hs, dlookup_dinsert_self, countErrors, List.countP_append,
          List.countP_cons]

/-- C6 witness: the theorem applied to the idle session with the agent run
raising "boom". -/
theorem C6_runner_catches_all_failures_witness :
    statusOf (run_browser_automation exStateIdle "s"
        (some (Stage.agentRun, "boom")) "" 0).state "s" = some "error" ∧
    countErrors (logsOf (run_browser_automation exStateIdle "s"
        (some (Stage.agentRun, "boom")) "" 0).state "s")
      = countErrors exIdleSession.logs + 1 := by
  have h := C6_runner_catches_all_failures exStateIdle "s" exIdleSession
    Stage.agentRun "boom" "" 0 rfl
  exact ⟨h.1, h.2⟩

/-- C7: every snapshot produced by `to_dict` (used by both the listing and
the websocket status updates) carries at most 50 log entries, those entries
are a suffix of the full append-ordered log (the most recent ones, oldest
beyond 50 omitted), and once the log holds at least 50 entries the snapshot
holds exactly 50. -/
theorem C7_snapshot_truncates_to_last_50 (s : BrowserSession) :
    (s.to_dict).logs.length ≤ 50 ∧
    (s.to_dict).logs <:+ s.logs ∧
    (50 ≤ s.logs.length → (s.to_dict).logs.length = 50) := by
  refine ⟨?_, ?_, ?_⟩
  · simp [BrowserSession.to_dict]
    omega
  · simp only [BrowserSession.to_dict]
    exact List.drop_suffix _ _
  · intro h
    simp [BrowserSession.to_dict]
    omega

/-- C7 witness: the theorem applied to a session holding 60 log entries. -/
theorem C7_snapshot_truncates_to_last_50_witness :
    (exSession60.to_dict).logs.length ≤ 50 ∧
    (exSession60.to_dict).logs <:+ exSession60.logs ∧
    (exSession60.to_dict).logs.length = 50 := by
  have h := C7_snapshot_truncates_to_last_50 exSession60
  exact ⟨h.1, h.2.1, h.2.2 (by simp [exSession60])⟩

/-- C8: `create_session` with the empty task fails with a 400 validation
error before touching any state; with a non-empty task and a fresh id it
returns the id and registers exactly one new session — idle, carrying the
task, with an empty log — leaving every other registry entry unchanged. -/
theorem C8_create_validates_and_inserts (st : SystemState) (t fid : String)
    (now : Nat) :
    create_session st "" fid now
      = .error { status_code := 400, detail := "Task is required" } ∧
    (t ≠ "" → dlookup st.sessions fid = none →
      create_session st t fid now
        = .ok ({ st with
            sessions := (dinsert st.sessions fid
              { session_id := fid, task := t, created_at := now }) }, fid) ∧
      dlookup (dinsert st.sessions fid
          { session_id := fid, task := t, created_at := now }) fid
        = some { session_id := fid, status := "idle", task := t,
                 created_at := now, logs := [] } ∧
      (dinsert st.sessions fid
          { session_id := fid, task := t, created_at := now }).length
        = st.sessions.length + 1 ∧
      ∀ k, k ≠ fid →
        dlookup (dinsert st.sessions fid
            { session_id := fid, task := t, created_at := now }) k
          = dlookup st.sessions k) := by
  refine ⟨by simp [create_session], ?_⟩
  intro ht hfresh
  refine ⟨by simp [create_session, ht], dlookup_dinsert_self _ _ _,
    dinsert_length_new _ _ _ hfresh, fun k hk => dlookup_dinsert_ne _ _ _ _ hk⟩

/-- C8 witness: the theorem applied to the empty registry with task "go". -/
theorem C8_create_validates_and_inserts_witness :
    create_session exEmptyState "" "id1" 0
      = .error { status_code := 400, detail := "Task is required" } ∧
    create_session exEmptyState "go" "id1" 0
      = .ok ({ sessions :=
          [("id1", { session_id := "id1", task := "go", created_at := 0 })] },
          "id1") := by
  have h := C8_create_validates_and_inserts exEmptyState "go" "id1" 0
  exact ⟨h.1, (h.2 (by decide) rfl).1⟩

/-- C9: the websocket endpoint accepts a connection for every session id —
existing or not — without any NotFound check; an iteration of its update loop
sends nothing while no session with the id exists, and sends the full status
snapshot to the connection once a session with the id exists. -/
theorem C9_websocket_accepts_any_id (st : SystemState) (sid : String)
    (ws : Nat) :
    (websocket_accept st sid ws).2 = true ∧
    (dlookup st.sessions sid = none → websocket_tick st sid ws = []) ∧
    (∀ s, dlookup st.sessions sid = some s →
      websocket_tick st sid ws = [(ws, WsMessage.status_update s.to_dict)]) := by
  refine ⟨rfl, ?_, ?_⟩
  · intro h
    simp [websocket_tick, h]
  · intro s h
    simp [websocket_tick, h]

/-- C9 witness: the theorem applied to an unknown id "ghost" and to the
existing id "s". -/
theorem C9_websocket_accepts_any_id_witness :
    (websocket_accept exStateIdle "ghost" 3).2 = true ∧
    websocket_tick exStateIdle "ghost" 3 = [] ∧
    websocket_tick exStateIdle "s" 3
      = [(3, WsMessage.status_update exIdleSession.to_dict)] :=
  ⟨(C9_websocket_accepts_any_id exStateIdle "ghost" 3).1,
   (C9_websocket_accepts_any_id exStateIdle "ghost" 3).2.1 rfl,
   (C9_websocket_accepts_any_id exStateIdle "s" 3).2.2 exIdleSession rfl⟩

/-- C10: `_log_to_session` for an id not in the registry returns immediately:
no error, no state change of any kind, and no message sent to any
connection. -/
theorem C10_log_to_unknown_session_is_noop (st : SystemState) (sid : String)
    (lvl msg : String) (now : Nat) (h : dlookup st.sessions sid = none) :
    log_to_session st sid lvl msg now = (st, []) := by
  simp [log_to_session, h]

/-- C10 witness: the theorem applied to the unknown id "ghost". -/
theorem C10_log_to_unknown_session_is_noop_witness :
    log_to_session exStateIdle "ghost" "info" "m" 1 = (exStateIdle, []) :=
  C10_log_to_unknown_session_is_noop exStateIdle "ghost" "info" "m" 1 rfl

end WebUI
